import Mathlib

/-!
Verification of the Verified Health Scoring Pipeline.

The development shallowly embeds the two source files of the repository:

* src/healthApiIntegration.js — the browser-side sync coordinator
  (syncHealthData, calculateHealthPoints, the healthState object);
* src/webpage.jsx — whose tail is the Swift HealthKitManager
  (validateDataConsistency, createVerifiedData, fetchVerifiedHealthData,
  fetchWorkouts, fetchSamples) together with its data models.

Floating-point doubles are modelled as rationals; dates are modelled as
rational timestamps (seconds); thrown Swift errors become Option or Except
values.
-/

/-! ## Points calculator (src/healthApiIntegration.js, calculateHealthPoints) -/

/-- The shape of the data object consumed by calculateHealthPoints:
steps, calories, distance (kilometres) and a workout count. -/
structure MockHealthData where
  steps : ℚ
  calories : ℚ
  distance : ℚ
  workouts : ℚ
deriving DecidableEq

/-- JavaScript Math.floor on a (rational-modelled) double. -/
def jsFloor (q : ℚ) : ℤ := ⌊q⌋

/-- JavaScript Math.round: rounds half up (towards positive infinity). -/
def jsRound (q : ℚ) : ℤ := ⌊q + 1/2⌋

/-- Per-metric step points, 1 point per 1000 steps (Math.floor(data.steps / 1000)). -/
def stepsPoints (data : MockHealthData) : ℚ := (jsFloor (data.steps / 1000) : ℚ)

/-- Per-metric calorie points, 1 point per 100 calories (Math.floor(data.calories / 100)). -/
def caloriesPoints (data : MockHealthData) : ℚ := (jsFloor (data.calories / 100) : ℚ)

/-- Per-metric workout points, 5 points per workout. -/
def workoutPoints (data : MockHealthData) : ℚ := data.workouts * 5

/-- Distance bonus: 2 points per km over 5 km, else 0. -/
def distanceBonusPoints (data : MockHealthData) : ℚ :=
  if data.distance > 5 then (data.distance - 5) * 2 else 0

/-- calculateHealthPoints from src/healthApiIntegration.js: the sum of the four
per-metric contributions, rounded to one decimal with Math.round(points * 10) / 10. -/
def calculateHealthPoints (data : MockHealthData) : ℚ :=
  let points : ℚ :=
    stepsPoints data + caloriesPoints data + workoutPoints data + distanceBonusPoints data
  (jsRound (points * 10) : ℚ) / 10

/-- C1: the spec scenario input steps=12000, calories=650, distance=8 km, workouts=1. -/
def c1Input : MockHealthData := { steps := 12000, calories := 650, distance := 8, workouts := 1 }

/-- C1. For steps=12000, calories=650, distance=8 km, workouts=1 the points
calculation yields stepsPoints=12, caloriesPoints=6, workoutPoints=5,
distanceBonusPoints=6 and a total of 29.0 (after one-decimal half-up rounding). -/
theorem points_scenario_12000 :
    stepsPoints c1Input = 12 ∧ caloriesPoints c1Input = 6 ∧
    workoutPoints c1Input = 5 ∧ distanceBonusPoints c1Input = 6 ∧
    calculateHealthPoints c1Input = 29 := by
  refine ⟨?_, ?_, ?_, ?_, ?_⟩ <;>
    norm_num [stepsPoints, caloriesPoints, workoutPoints, distanceBonusPoints,
      calculateHealthPoints, jsFloor, jsRound, c1Input]

/-! ## HealthKit data model (src/webpage.jsx, MARK Data Models) -/

/-- WorkoutData from src/webpage.jsx: one workout sample. Dates are rational
timestamps in seconds, doubles are rationals. -/
structure WorkoutData where
  type : ℕ
  duration : ℚ
  calories : ℚ
  distance : ℚ
  startDate : ℚ
  endDate : ℚ
  source : String
deriving DecidableEq

/-- HeartRateReading from src/webpage.jsx: one heart-rate sample. -/
structure HeartRateReading where
  bpm : ℚ
  timestamp : ℚ
deriving DecidableEq

/-- DeviceInfo from src/webpage.jsx: opaque provenance strings. -/
structure DeviceInfo where
  model : String
  systemVersion : String
  identifierForVendor : String
deriving DecidableEq

/-- RawHealthData from src/webpage.jsx: the aggregated per-day metrics. -/
structure RawHealthData where
  date : ℚ
  steps : ℚ
  calories : ℚ
  distance : ℚ
  workouts : List WorkoutData
  heartRateReadings : List HeartRateReading
  deviceInfo : DeviceInfo
  timestamp : ℚ
deriving DecidableEq

/-- VerifiedHealthData from src/webpage.jsx: raw data plus its signature. -/
structure VerifiedHealthData where
  rawData : RawHealthData
  signature : String
  version : String
deriving DecidableEq

/-! ## Anti-cheating validation (src/webpage.jsx, validateDataConsistency)

The Swift method throws HealthKitError.inconsistentData(reason) at the first
failing check; we embed it as a function returning the first reason, or none
when the data is accepted. The wall clock read by Date() inside the method is
passed in as the parameter now. -/

/-- The per-workout portion of rule 3: duration above 24 hours, then a
future-dated start, each with the reason string thrown by the code. -/
def workoutCheck (now : ℚ) (w : WorkoutData) : Option String :=
  if w.duration > 86400 then some "Workout duration exceeds 24 hours"
  else if w.startDate > now then some "Workout in the future"
  else none

/-- The per-reading portion of rule 4: bpm outside the plausible 30..250 band. -/
def heartRateCheck (r : HeartRateReading) : Option String :=
  if r.bpm < 30 ∨ r.bpm > 250 then some "Heart rate outside realistic range"
  else none

/-- First error produced by a per-element check over a list, in list order;
this is how a Swift for-loop that throws on the first bad element behaves. -/
def firstError {α : Type} (f : α → Option String) : List α → Option String
  | [] => none
  | x :: xs =>
    match f x with
    | some r => some r
    | none => firstError f xs

/-- validateDataConsistency from src/webpage.jsx, embedded as a function
returning the reason of the first failing check (none when valid). The checks
appear exactly in source order: steps/distance correlation, calories without
activity, per-workout sanity, per-reading heart-rate range, the step cap and
the calorie cap. -/
def validateDataConsistency (now : ℚ) (data : RawHealthData) : Option String :=
  let expectedDistance := data.steps * 0.75
  let distanceVariance := |data.distance - expectedDistance| / expectedDistance
  if data.steps > 1000 ∧ distanceVariance > 0.5 then
    some "Steps and distance don\x27t correlate"
  else
    let workoutCalories := data.workouts.foldl (fun acc w => acc + w.calories) 0
    if data.calories > 0 ∧ workoutCalories = 0 ∧ data.steps < 100 then
      some "Calories burned without activity"
    else
      match firstError (workoutCheck now) data.workouts with
      | some r => some r
      | none =>
        match firstError heartRateCheck data.heartRateReadings with
        | some r => some r
        | none =>
          if data.steps > 100000 then some "Unrealistic step count"
          else if data.calories > 10000 then some "Unrealistic calorie burn"
          else none

/-! ## Rule decomposition of the validator, for the order/first-failure claims -/

/-- Rule 1 in isolation: steps/distance correlation. -/
def rule1 (data : RawHealthData) : Option String :=
  if data.steps > 1000 ∧ |data.distance - data.steps * 0.75| / (data.steps * 0.75) > 0.5 then
    some "Steps and distance don\x27t correlate"
  else none

/-- Rule 2 in isolation: calories without corroborating activity. -/
def rule2 (data : RawHealthData) : Option String :=
  if data.calories > 0 ∧ data.workouts.foldl (fun acc w => acc + w.calories) 0 = 0 ∧
      data.steps < 100 then
    some "Calories burned without activity"
  else none

/-- Rule 3 in isolation: per-workout sanity, first offending workout decides. -/
def rule3 (now : ℚ) (data : RawHealthData) : Option String :=
  firstError (workoutCheck now) data.workouts

/-- Rule 4 in isolation: per-reading heart-rate plausibility. -/
def rule4 (data : RawHealthData) : Option String :=
  firstError heartRateCheck data.heartRateReadings

/-- Rule 5 in isolation: absolute caps, step cap checked before calorie cap. -/
def rule5 (data : RawHealthData) : Option String :=
  if data.steps > 100000 then some "Unrealistic step count"
  else if data.calories > 10000 then some "Unrealistic calorie burn"
  else none

/-- The five rule outcomes in the order the spec lists them. -/
def ruleResults (now : ℚ) (data : RawHealthData) : List (Option String) :=
  [rule1 data, rule2 data, rule3 now data, rule4 data, rule5 data]

/-- The first failing outcome of an ordered list of rule outcomes. -/
def firstFailing : List (Option String) → Option String
  | [] => none
  | o :: rest =>
    match o with
    | some r => some r
    | none => firstFailing rest

/-! ## Helper lemmas about the validator -/

theorem firstError_eq_some {α : Type} {f : α → Option String} {l : List α} {r : String}
    (h : firstError f l = some r) : ∃ x, x ∈ l ∧ f x = some r := by
  induction l with
  | nil => simp [firstError] at h
  | cons x xs ih =>
    rw [firstError] at h
    cases hx : f x with
    | some s =>
      rw [hx] at h
      exact ⟨x, List.mem_cons_self x xs, by rw [hx]; exact h⟩
    | none =>
      rw [hx] at h
      obtain ⟨y, hy, hfy⟩ := ih h
      exact ⟨y, List.mem_cons_of_mem x hy, hfy⟩

theorem workoutCheck_values {now : ℚ} {w : WorkoutData} {r : String}
    (h : workoutCheck now w = some r) :
    r = "Workout duration exceeds 24 hours" ∨ r = "Workout in the future" := by
  unfold workoutCheck at h
  split at h
  · exact Or.inl (Option.some.inj h).symm
  · split at h
    · exact Or.inr (Option.some.inj h).symm
    · exact absurd h (by simp)

theorem heartRateCheck_value {x : HeartRateReading} {r : String}
    (h : heartRateCheck x = some r) : r = "Heart rate outside realistic range" := by
  unfold heartRateCheck at h
  split at h
  · exact (Option.some.inj h).symm
  · exact absurd h (by simp)

theorem validate_corr_iff (now : ℚ) (d : RawHealthData) :
    validateDataConsistency now d = some "Steps and distance don\x27t correlate" ↔
      d.steps > 1000 ∧ |d.distance - d.steps * 0.75| / (d.steps * 0.75) > 0.5 := by
  simp only [validateDataConsistency]
  constructor
  · intro hval
    split at hval
    · next hcond => exact hcond
    · next hcond =>
      exfalso
      split at hval
      · exact absurd hval (by decide)
      · split at hval
        · next r heq =>
          obtain ⟨x, _, hx⟩ := firstError_eq_some heq
          rcases workoutCheck_values hx with h | h <;> (subst h; exact absurd hval (by decide))
        · split at hval
          · next r heq =>
            obtain ⟨x, _, hx⟩ := firstError_eq_some heq
            rw [heartRateCheck_value hx] at hval
            exact absurd hval (by decide)
          · split at hval
            · exact absurd hval (by decide)
            · split at hval
              · exact absurd hval (by decide)
              · exact absurd hval (by decide)
  · intro hcond
    rw [if_pos hcond]

theorem validate_eq_rules (now : ℚ) (d : RawHealthData) :
    validateDataConsistency now d = firstFailing (ruleResults now d) := by
  by_cases h1 : d.steps > 1000 ∧ |d.distance - d.steps * 0.75| / (d.steps * 0.75) > 0.5
  · simp [validateDataConsistency, ruleResults, firstFailing, rule1, h1]
  · by_cases h2 : d.calories > 0 ∧ d.workouts.foldl (fun acc w => acc + w.calories) 0 = 0 ∧
        d.steps < 100
    · simp [validateDataConsistency, ruleResults, firstFailing, rule1, rule2, h1, h2]
    · cases h3 : firstError (workoutCheck now) d.workouts with
      | some r =>
        simp [validateDataConsistency, ruleResults, firstFailing, rule1, rule2, rule3, h1, h2, h3]
      | none =>
        cases h4 : firstError heartRateCheck d.heartRateReadings with
        | some r =>
          simp [validateDataConsistency, ruleResults, firstFailing, rule1, rule2, rule3, rule4,
            h1, h2, h3, h4]
        | none =>
          by_cases h5 : d.steps > 100000
          · simp [validateDataConsistency, ruleResults, firstFailing, rule1, rule2, rule3, rule4,
              rule5, h1, h2, h3, h4, h5]
          · by_cases h6 : d.calories > 10000 <;>
              simp [validateDataConsistency, ruleResults, firstFailing, rule1, rule2, rule3, rule4,
                rule5, h1, h2, h3, h4, h5, h6]

/-- C2. For steps above 1000 the validator returns the steps/distance
correlation reason exactly when the relative deviation of distance from
0.75 * steps exceeds one half; for steps at or below 1000 the correlation
rule never causes rejection, whatever the distance. -/
theorem correlation_rule_characterization (now : ℚ) (d : RawHealthData) :
    (d.steps > 1000 →
      (validateDataConsistency now d = some "Steps and distance don\x27t correlate" ↔
        |d.distance - d.steps * 0.75| / (d.steps * 0.75) > 0.5)) ∧
    (d.steps ≤ 1000 →
      validateDataConsistency now d ≠ some "Steps and distance don\x27t correlate") := by
  constructor
  · intro hsteps
    rw [validate_corr_iff]
    exact ⟨fun h => h.2, fun h => ⟨hsteps, h⟩⟩
  · intro hsteps hval
    exact absurd ((validate_corr_iff now d).mp hval).1 (not_lt.mpr hsteps)

/-- A fixed concrete device-info value used by the concrete data samples. -/
def canonDevice : DeviceInfo :=
  { model := "iPhone", systemVersion := "18.0", identifierForVendor := "unknown" }

/-- Concrete data for the C2 witness: 2000 steps but zero distance. -/
def corrData : RawHealthData :=
  { date := 0, steps := 2000, calories := 0, distance := 0, workouts := [],
    heartRateReadings := [], deviceInfo := canonDevice, timestamp := 0 }

/-- C2 witness: on 2000 steps with zero recorded distance the validator
rejects with the correlation reason. -/
theorem correlation_rule_characterization_witness :
    validateDataConsistency 0 corrData = some "Steps and distance don\x27t correlate" :=
  ((correlation_rule_characterization 0 corrData).1 (by norm_num [corrData])).mpr
    (by norm_num [corrData])

/-- C3. The validator evaluates its rules in the listed order and returns the
reason of the first failing rule; being a plain function of the wall clock and
the data, its verdict for a given input is deterministic and reproducible. -/
theorem validate_returns_first_failing_rule (now : ℚ) (d : RawHealthData) :
    validateDataConsistency now d = firstFailing (ruleResults now d) :=
  validate_eq_rules now d

/-- Concrete data refuting C4 as stated: zero steps and zero calories but a
25-hour workout, which rule 3 rejects. -/
def zeroButBadWorkout : RawHealthData :=
  { date := 0, steps := 0, calories := 0, distance := 0,
    workouts := [{ type := 37, duration := 90000, calories := 0, distance := 0,
                   startDate := 0, endDate := 90000, source := "app" }],
    heartRateReadings := [], deviceInfo := canonDevice, timestamp := 0 }

/-- C4 counterexample: a RawHealthData with steps = 0 and calories = 0 that the
validator rejects (rule 3 fires on a workout longer than 24 hours), so not
every such input is accepted. -/
theorem zero_steps_accepted_counterexample :
    zeroButBadWorkout.steps = 0 ∧ zeroButBadWorkout.calories = 0 ∧
    validateDataConsistency 0 zeroButBadWorkout = some "Workout duration exceeds 24 hours" := by
  refine ⟨rfl, rfl, ?_⟩
  norm_num [validateDataConsistency, firstError, workoutCheck, zeroButBadWorkout]

/-- C4 amended. Rules 1, 2 and 5 are vacuous when steps = 0 and calories = 0:
any such RawHealthData whose workouts pass rule 3 and whose heart-rate readings
pass rule 4 (in particular one with empty sequences) is accepted. -/
theorem zero_steps_zero_calories_accepted (now : ℚ) (d : RawHealthData)
    (hs : d.steps = 0) (hc : d.calories = 0)
    (hw : firstError (workoutCheck now) d.workouts = none)
    (hr : firstError heartRateCheck d.heartRateReadings = none) :
    validateDataConsistency now d = none := by
  norm_num [validateDataConsistency, hs, hc, hw, hr]

/-- A fully zeroed RawHealthData with empty workout and heart-rate sequences. -/
def zeroData : RawHealthData :=
  { date := 0, steps := 0, calories := 0, distance := 0, workouts := [],
    heartRateReadings := [], deviceInfo := canonDevice, timestamp := 0 }

/-- C4 witness: the zeroed record with empty sequences is accepted. -/
theorem zero_steps_zero_calories_accepted_witness :
    validateDataConsistency 0 zeroData = none :=
  zero_steps_zero_calories_accepted 0 zeroData rfl rfl rfl rfl

/-! ## Canonical serialization and signing (src/webpage.jsx, createVerifiedData)

createVerifiedData serializes rawData with a JSONEncoder (struct fields in
declaration order, iso8601 dates) and signs the bytes with HMAC-SHA256 under
the manager signing key. The serializer below renders the same field order;
the MAC itself is external library code (CryptoKit), so it is carried as an
explicit function parameter mac, taking the key and the message. -/

/-- Canonical rendering of a rational number. -/
def ratStr (q : ℚ) : String := toString q.num ++ "/" ++ toString q.den

/-- Canonical serialization of one workout, fields in declaration order. -/
def serializeWorkout (w : WorkoutData) : String :=
  "\x7b\"type\":" ++ toString w.type ++ ",\"duration\":" ++ ratStr w.duration ++
  ",\"calories\":" ++ ratStr w.calories ++ ",\"distance\":" ++ ratStr w.distance ++
  ",\"startDate\":" ++ ratStr w.startDate ++ ",\"endDate\":" ++ ratStr w.endDate ++
  ",\"source\":\"" ++ w.source ++ "\"\x7d"

/-- Canonical serialization of one heart-rate reading. -/
def serializeHeartRate (r : HeartRateReading) : String :=
  "\x7b\"bpm\":" ++ ratStr r.bpm ++ ",\"timestamp\":" ++ ratStr r.timestamp ++ "\x7d"

/-- Canonical serialization of the device info. -/
def serializeDevice (i : DeviceInfo) : String :=
  "\x7b\"model\":\"" ++ i.model ++ "\",\"systemVersion\":\"" ++ i.systemVersion ++
  "\",\"identifierForVendor\":\"" ++ i.identifierForVendor ++ "\"\x7d"

/-- Comma-separated rendering of a list of serialized elements. -/
def serializeList {α : Type} (f : α → String) : List α → String
  | [] => ""
  | [x] => f x
  | x :: y :: xs => f x ++ "," ++ serializeList f (y :: xs)

/-- Canonical serialization of a RawHealthData, fields in declaration order,
as produced by the JSONEncoder in createVerifiedData. -/
def serializeRaw (d : RawHealthData) : String :=
  "\x7b\"date\":" ++ ratStr d.date ++ ",\"steps\":" ++ ratStr d.steps ++
  ",\"calories\":" ++ ratStr d.calories ++ ",\"distance\":" ++ ratStr d.distance ++
  ",\"workouts\":[" ++ serializeList serializeWorkout d.workouts ++
  "],\"heartRateReadings\":[" ++ serializeList serializeHeartRate d.heartRateReadings ++
  "],\"deviceInfo\":" ++ serializeDevice d.deviceInfo ++
  ",\"timestamp\":" ++ ratStr d.timestamp ++ "\x7d"

/-- createVerifiedData from src/webpage.jsx: attach to the raw data the MAC of
its canonical serialization under the signing key, and the schema version. -/
def createVerifiedData (mac : String → String → String) (signingKey : String)
    (rawData : RawHealthData) : VerifiedHealthData :=
  { rawData := rawData
    signature := mac signingKey (serializeRaw rawData)
    version := "1.0" }

/-- Modelled from the spec: the verification entry point verifyRecord is
described in the spec (sections 4.3 and 6) but absent from src — a record is
authentic iff the MAC recomputed over the canonical serialization of rawData
under the same key equals the stored signature. -/
def verifyRecord (mac : String → String → String) (key : String)
    (record : VerifiedHealthData) : Bool :=
  mac key (serializeRaw record.rawData) == record.signature

/-- C5. Signing then verifying an unmodified record with the same key returns
true; a record is authentic iff the recomputed MAC equals the stored
signature; and replacing the signed rawData by tampered data whose canonical
serialization the MAC separates from the original (the collision-freedom
property expected of HMAC-SHA256) makes verification return false. -/
theorem sign_verify_roundtrip (mac : String → String → String) (key : String)
    (d tampered : RawHealthData)
    (hsep : mac key (serializeRaw tampered) ≠ mac key (serializeRaw d)) :
    verifyRecord mac key (createVerifiedData mac key d) = true ∧
    (∀ record : VerifiedHealthData,
      verifyRecord mac key record = true ↔
        mac key (serializeRaw record.rawData) = record.signature) ∧
    verifyRecord mac key
      { rawData := tampered
        signature := (createVerifiedData mac key d).signature
        version := (createVerifiedData mac key d).version } = false := by
  refine ⟨?_, ?_, ?_⟩
  · simp [verifyRecord, createVerifiedData]
  · intro record
    simp [verifyRecord]
  · simp [verifyRecord, createVerifiedData]
    exact hsep

/-- A second concrete record, differing from zeroData in the steps field. -/
def tamperedData : RawHealthData := { zeroData with steps := 99 }

/-- C5 witness: with the injective MAC prepending the key, signing zeroData
and verifying it succeeds, and verifying the tampered record fails. -/
theorem sign_verify_roundtrip_witness :
    verifyRecord (fun k m => k ++ m) "secret" (createVerifiedData (fun k m => k ++ m) "secret" zeroData) = true ∧
    verifyRecord (fun k m => k ++ m) "secret"
      { rawData := tamperedData
        signature := (createVerifiedData (fun k m => k ++ m) "secret" zeroData).signature
        version := (createVerifiedData (fun k m => k ++ m) "secret" zeroData).version } = false := by
  have h := sign_verify_roundtrip (fun k m => k ++ m) "secret" zeroData tamperedData
    (by simp [tamperedData, zeroData, serializeRaw, ratStr, canonDevice, serializeDevice,
      serializeList]; decide)
  exact ⟨h.1, h.2.2⟩

/-! ## The verification pipeline (src/webpage.jsx, fetchVerifiedHealthData)

The five metric fetches are sequential awaits whose thrown errors propagate;
each is passed in as an Except value. The nested matches mirror the
try-await chain, then the validation throw, then signing. -/

/-- fetchVerifiedHealthData from src/webpage.jsx: aggregate the five fetched
metrics into a RawHealthData, reject it if validateDataConsistency throws, and
otherwise sign it with createVerifiedData. -/
def fetchVerifiedHealthData (mac : String → String → String) (signingKey : String)
    (now date : ℚ) (dev : DeviceInfo)
    (stepsResult caloriesResult distanceResult : Except String ℚ)
    (workoutsResult : Except String (List WorkoutData))
    (heartRateResult : Except String (List HeartRateReading)) :
    Except String VerifiedHealthData :=
  match stepsResult with
  | .error e => .error e
  | .ok steps =>
    match caloriesResult with
    | .error e => .error e
    | .ok calories =>
      match distanceResult with
      | .error e => .error e
      | .ok distance =>
        match workoutsResult with
        | .error e => .error e
        | .ok workouts =>
          match heartRateResult with
          | .error e => .error e
          | .ok heartRateReadings =>
            let rawData : RawHealthData :=
              { date := date, steps := steps, calories := calories,
                distance := distance, workouts := workouts,
                heartRateReadings := heartRateReadings,
                deviceInfo := dev, timestamp := now }
            match validateDataConsistency now rawData with
            | some reason => .error reason
            | none => .ok (createVerifiedData mac signingKey rawData)

/-- C6. The pipeline signs exactly the data the validator accepts: every
successful result is the signed record of validator-accepted raw data; when
all five fetches succeed and the validator accepts, the signed record is
returned; and when the validator rejects, the call fails with the validation
reason and produces no signed record. -/
theorem no_signing_without_validation (mac : String → String → String) (key : String)
    (now date : ℚ) (dev : DeviceInfo)
    (sR cR dR : Except String ℚ) (wR : Except String (List WorkoutData))
    (hR : Except String (List HeartRateReading))
    (steps calories distance : ℚ) (workouts : List WorkoutData)
    (readings : List HeartRateReading) :
    (∀ v, fetchVerifiedHealthData mac key now date dev sR cR dR wR hR = Except.ok v →
      validateDataConsistency now v.rawData = none ∧
      v = createVerifiedData mac key v.rawData) ∧
    (validateDataConsistency now
        { date := date, steps := steps, calories := calories, distance := distance,
          workouts := workouts, heartRateReadings := readings,
          deviceInfo := dev, timestamp := now } = none →
      fetchVerifiedHealthData mac key now date dev (.ok steps) (.ok calories)
          (.ok distance) (.ok workouts) (.ok readings) =
        Except.ok (createVerifiedData mac key
          { date := date, steps := steps, calories := calories, distance := distance,
            workouts := workouts, heartRateReadings := readings,
            deviceInfo := dev, timestamp := now })) ∧
    (∀ r, validateDataConsistency now
        { date := date, steps := steps, calories := calories, distance := distance,
          workouts := workouts, heartRateReadings := readings,
          deviceInfo := dev, timestamp := now } = some r →
      fetchVerifiedHealthData mac key now date dev (.ok steps) (.ok calories)
          (.ok distance) (.ok workouts) (.ok readings) = Except.error r) := by
  refine ⟨?_, ?_, ?_⟩
  · intro v hv
    cases sR with
    | error e => simp [fetchVerifiedHealthData] at hv
    | ok s =>
      cases cR with
      | error e => simp [fetchVerifiedHealthData] at hv
      | ok c =>
        cases dR with
        | error e => simp [fetchVerifiedHealthData] at hv
        | ok dist =>
          cases wR with
          | error e => simp [fetchVerifiedHealthData] at hv
          | ok ws =>
            cases hR with
            | error e => simp [fetchVerifiedHealthData] at hv
            | ok hrs =>
              simp only [fetchVerifiedHealthData] at hv
              cases hval : validateDataConsistency now
                  { date := date, steps := s, calories := c, distance := dist,
                    workouts := ws, heartRateReadings := hrs,
                    deviceInfo := dev, timestamp := now } with
              | some r =>
                rw [hval] at hv
                exact Except.noConfusion hv
              | none =>
                rw [hval] at hv
                have hv2 := Except.ok.inj hv
                subst hv2
                exact ⟨hval, rfl⟩
  · intro hvalid
    simp only [fetchVerifiedHealthData]
    rw [hvalid]
  · intro r hreject
    simp only [fetchVerifiedHealthData]
    rw [hreject]

/-- C6 witness: with all five fetches succeeding on the all-zero metrics, the
pipeline returns the signed record. -/
theorem no_signing_without_validation_witness :
    fetchVerifiedHealthData (fun k m => k ++ m) "secret" 0 0 canonDevice
        (.ok 0) (.ok 0) (.ok 0) (.ok []) (.ok []) =
      Except.ok (createVerifiedData (fun k m => k ++ m) "secret"
        { date := 0, steps := 0, calories := 0, distance := 0, workouts := [],
          heartRateReadings := [], deviceInfo := canonDevice, timestamp := 0 }) :=
  (no_signing_without_validation (fun k m => k ++ m) "secret" 0 0 canonDevice
      (.ok 0) (.ok 0) (.ok 0) (.ok []) (.ok []) 0 0 0 [] []).2.1
    (by norm_num [validateDataConsistency, firstError])

/-! ## Sample and workout fetchers (src/webpage.jsx, fetchWorkouts / fetchSamples)

Both fetchers query the HealthKit store over the day [startOfDay, startOfDay +
one day) with the strictStartDate option and a sort descriptor on startDate:
.forward (ascending) for quantity samples, .reverse (descending) for workouts.
The store is modelled as a list of samples; the query filters the day and
sorts by the descriptor. -/

/-- A HealthKit quantity sample: a value and its start date. -/
structure HKQuantitySample where
  value : ℚ
  startDate : ℚ
deriving DecidableEq

/-- A HealthKit workout as read by fetchWorkouts. -/
structure HKWorkout where
  activityType : ℕ
  duration : ℚ
  totalEnergyBurned : Option ℚ
  totalDistance : Option ℚ
  startDate : ℚ
  endDate : ℚ
  sourceId : String
deriving DecidableEq

/-- fetchSamples from src/webpage.jsx: the day's samples sorted by startDate
in forward (ascending) order. -/
def fetchSamples (startOfDay : ℚ) (store : List HKQuantitySample) :
    List HKQuantitySample :=
  (store.filter
      (fun s => decide (startOfDay ≤ s.startDate ∧ s.startDate < startOfDay + 86400))).mergeSort
    (fun a b => decide (a.startDate ≤ b.startDate))

/-- fetchHeartRateReadings from src/webpage.jsx: map the day's sorted samples
to readings, the timestamp being the sample's start date. -/
def fetchHeartRateReadings (startOfDay : ℚ) (store : List HKQuantitySample) :
    List HeartRateReading :=
  (fetchSamples startOfDay store).map
    (fun s => { bpm := s.value, timestamp := s.startDate })

/-- fetchWorkouts from src/webpage.jsx: the day's workouts sorted by startDate
in reverse (descending) order, mapped to WorkoutData with missing energy or
distance defaulted to 0. -/
def fetchWorkouts (startOfDay : ℚ) (store : List HKWorkout) : List WorkoutData :=
  ((store.filter
      (fun w => decide (startOfDay ≤ w.startDate ∧ w.startDate < startOfDay + 86400))).mergeSort
    (fun a b => decide (b.startDate ≤ a.startDate))).map
    (fun w => { type := w.activityType, duration := w.duration,
                calories := w.totalEnergyBurned.getD 0,
                distance := w.totalDistance.getD 0,
                startDate := w.startDate, endDate := w.endDate,
                source := w.sourceId })

/-- A workout starting at second 100 of the day. -/
def wkLater : HKWorkout :=
  { activityType := 37, duration := 600, totalEnergyBurned := none,
    totalDistance := none, startDate := 100, endDate := 700, sourceId := "app" }

/-- A workout starting at second 0 of the day. -/
def wkEarlier : HKWorkout :=
  { activityType := 37, duration := 600, totalEnergyBurned := none,
    totalDistance := none, startDate := 0, endDate := 600, sourceId := "app" }

/-- C10 counterexample: on a day holding two workouts, the workout sequence
produced by fetchWorkouts is NOT ordered by start time ascending — the sort
descriptor is .reverse, so the later workout comes first. -/
theorem workouts_ascending_counterexample :
    ¬ List.Pairwise (fun a b : WorkoutData => a.startDate ≤ b.startDate)
        (fetchWorkouts 0 [wkLater, wkEarlier]) := by
  have hfilter :
      List.filter
        (fun w => decide ((0:ℚ) ≤ w.startDate ∧ w.startDate < 0 + 86400))
        [wkLater, wkEarlier] = [wkLater, wkEarlier] := by
    norm_num [wkLater, wkEarlier]
  have hsorted :
      List.Pairwise
        (fun a b : HKWorkout => decide (b.startDate ≤ a.startDate) = true)
        [wkLater, wkEarlier] := by
    norm_num [wkLater, wkEarlier]
  have hms := List.mergeSort_of_sorted hsorted
  unfold fetchWorkouts
  rw [hfilter, hms]
  norm_num [wkLater, wkEarlier, List.pairwise_cons]

/-- C10 amended. For every input day and store contents, the heart-rate
sequence is ordered by sample time ascending, while the workout sequence is
ordered by start time DESCENDING (the query uses a .reverse sort descriptor). -/
theorem fetch_sequences_sorted (startOfDay : ℚ) (workoutStore : List HKWorkout)
    (sampleStore : List HKQuantitySample) :
    List.Pairwise (fun a b : HeartRateReading => a.timestamp ≤ b.timestamp)
      (fetchHeartRateReadings startOfDay sampleStore) ∧
    List.Pairwise (fun a b : WorkoutData => b.startDate ≤ a.startDate)
      (fetchWorkouts startOfDay workoutStore) := by
  constructor
  · unfold fetchHeartRateReadings fetchSamples
    rw [List.pairwise_map]
    have h := @List.sorted_mergeSort _
      (fun a b : HKQuantitySample => decide (a.startDate ≤ b.startDate))
      (fun a b c hab hbc =>
        decide_eq_true (le_trans (of_decide_eq_true hab) (of_decide_eq_true hbc)))
      (fun a b => by
        rcases le_total a.startDate b.startDate with h | h <;> simp [h])
      (sampleStore.filter
        (fun s => decide (startOfDay ≤ s.startDate ∧ s.startDate < startOfDay + 86400)))
    exact h.imp (fun hab => of_decide_eq_true hab)
  · unfold fetchWorkouts
    rw [List.pairwise_map]
    have h := @List.sorted_mergeSort _
      (fun a b : HKWorkout => decide (b.startDate ≤ a.startDate))
      (fun a b c hab hbc =>
        decide_eq_true (le_trans (of_decide_eq_true hbc) (of_decide_eq_true hab)))
      (fun a b => by
        rcases le_total a.startDate b.startDate with h | h <;> simp [h])
      (workoutStore.filter
        (fun w => decide (startOfDay ≤ w.startDate ∧ w.startDate < startOfDay + 86400)))
    exact h.imp (fun hab => of_decide_eq_true hab)

/-! ## Sync coordinator (src/healthApiIntegration.js, syncHealthData)

healthState plus the surrounding league state are gathered into one state
record. syncHealthData is async: it first checks and sets the isSyncing flag,
then awaits the (mocked) data source, then applies the try/catch/finally
block. The await outcome — the fetched data or a thrown error — enters as an
Except parameter, and the two halves around the suspension point are split
into syncBegin and syncFinish so that an interleaved second request can be
reasoned about. Observable toast calls are collected as an event list. -/

/-- The mutable browser-side state touched by syncHealthData: the healthState
object and the two league score fields it updates. -/
structure AppState where
  isSyncing : Bool
  data : MockHealthData
  points : ℚ
  status : String
  lastSync : Option ℚ
  userScore : ℚ
  weekPoints : ℚ
deriving DecidableEq

/-- The toast notifications syncHealthData can emit. -/
inductive SyncEvent where
  | toastSuccess (points : ℚ)
  | toastError
deriving DecidableEq

/-- The part of syncHealthData before the suspension point: the isSyncing
guard (early return yields none) and setting the flag. -/
def syncBegin (s : AppState) : Option AppState :=
  if s.isSyncing then none
  else some { s with isSyncing := true }

/-- The part of syncHealthData after the suspension point. On a fulfilled
await: store the data, compute and add the points, mark synced, record the
sync time, toast success. On a rejected await: mark error, toast the failure.
The finally block clears isSyncing on both paths. -/
def syncFinish (now : ℚ) (s : AppState) (outcome : Except Unit MockHealthData) :
    AppState × List SyncEvent :=
  match outcome with
  | .ok mockData =>
    let p := calculateHealthPoints mockData
    ({ s with
        isSyncing := false
        data := mockData
        points := p
        status := "synced"
        lastSync := some now
        userScore := s.userScore + p
        weekPoints := s.weekPoints + p },
      [SyncEvent.toastSuccess p])
  | .error _ =>
    ({ s with isSyncing := false, status := "error" }, [SyncEvent.toastError])

/-- syncHealthData from src/healthApiIntegration.js as one whole invocation:
guard, flag, awaited outcome, try/catch/finally. -/
def syncHealthData (now : ℚ) (s : AppState) (outcome : Except Unit MockHealthData) :
    AppState × List SyncEvent :=
  match syncBegin s with
  | none => (s, [])
  | some started => syncFinish now started outcome

/-- A concrete state with a sync already in flight. -/
def busyState : AppState :=
  { isSyncing := true, data := { steps := 0, calories := 0, distance := 0, workouts := 0 },
    points := 0, status := "not-synced", lastSync := none, userScore := 3, weekPoints := 7 }

/-- C7 counterexample: while a sync is in flight, a second syncHealthData
invocation returns with the state untouched and an EMPTY event list — no
SyncInProgress error (nor any other signal) is produced, so the second request
is silently dropped rather than rejected with SyncInProgress. -/
theorem second_sync_silent_counterexample :
    syncHealthData 5 busyState (.ok { steps := 9000, calories := 500, distance := 6, workouts := 1 }) =
      (busyState, []) := by
  norm_num [syncHealthData, syncBegin, busyState]

/-- C7 amended. While a sync is in flight, a second syncHealthData request for
the session returns immediately as a silent no-op: it emits no event, leaves
the state exactly as it was (so it is not queued), and the in-flight sync,
resuming from the same state, reaches the same outcome it would have reached
without the second request. -/
theorem second_sync_noop (now later : ℚ) (s : AppState)
    (h : s.isSyncing = true) (outcome pending : Except Unit MockHealthData) :
    syncHealthData now s outcome = (s, []) ∧
    syncFinish later (syncHealthData now s outcome).1 pending = syncFinish later s pending := by
  have hskip : syncHealthData now s outcome = (s, []) := by
    simp [syncHealthData, syncBegin, h]
  exact ⟨hskip, by rw [hskip]⟩

/-- C7 witness: the concrete busy state, a concrete second request and the
in-flight sync's pending failure outcome. -/
theorem second_sync_noop_witness :
    syncHealthData 5 busyState (.ok { steps := 9000, calories := 500, distance := 6, workouts := 1 }) =
      (busyState, []) ∧
    syncFinish 9 (syncHealthData 5 busyState (.ok { steps := 9000, calories := 500, distance := 6, workouts := 1 })).1
        (.error ()) =
      syncFinish 9 busyState (.error ()) :=
  second_sync_noop 5 9 busyState rfl
    (.ok { steps := 9000, calories := 500, distance := 6, workouts := 1 }) (.error ())

/-- C8. A sync whose awaited outcome is a failure contributes no points: the
matchup user score and the week points in the resulting state are exactly the
values they had before the sync began, whether or not the guard let the sync
start. -/
theorem failed_sync_adds_no_points (now : ℚ) (s : AppState) (e : Unit) :
    ((syncHealthData now s (.error e)).1).userScore = s.userScore ∧
    ((syncHealthData now s (.error e)).1).weekPoints = s.weekPoints := by
  cases hb : s.isSyncing <;>
    simp [syncHealthData, syncBegin, syncFinish, hb]

/-- C9. An invocation that actually starts (the flag was clear at entry)
always ends with isSyncing cleared again, on the success path and on every
failure path alike, so the session is never locked out of later syncs. -/
theorem sync_always_clears_flag (now : ℚ) (s : AppState)
    (h : s.isSyncing = false) (outcome : Except Unit MockHealthData) :
    ((syncHealthData now s outcome).1).isSyncing = false := by
  cases outcome <;> simp [syncHealthData, syncBegin, syncFinish, h]

/-- A concrete idle state. -/
def idleState : AppState :=
  { isSyncing := false, data := { steps := 0, calories := 0, distance := 0, workouts := 0 },
    points := 0, status := "not-synced", lastSync := none, userScore := 3, weekPoints := 7 }

/-- C9 witness: a failed sync from the concrete idle state ends with the flag
cleared. -/
theorem sync_always_clears_flag_witness :
    ((syncHealthData 5 idleState (.error ())).1).isSyncing = false :=
  sync_always_clears_flag 5 idleState rfl (.error ())
